import Mathlib

/-!
Verification of the BioLink orchestration core against its specification.

The embedding models the Python modules
`app/services/tool_registry.py`, `app/services/intent_router.py` and
`app/services/orchestrator.py` as pure Lean functions.  Text is modelled as
`List Char` (`Str`); Python exceptions are modelled with `Except String`;
the external database and LLM backends are modelled as oracles supplied in
an environment record.  Machine details that cannot influence any claim
(sleep/backoff timing, logging, audit emission — all side effects that never
feed back into a returned value) are not modelled.
-/

namespace BioLink

/-- Text is modelled as a list of characters (ASCII in all inputs of interest);
Python `str` methods are modelled char-by-char below. -/
abbrev Str := List Char

/-- Converts a Lean string literal into the `Str` model. -/
def strL (s : String) : Str := s.toList

/-- The whitespace set of Python `str.strip` / regex `\s` (ASCII part). -/
def pySpace (c : Char) : Bool :=
  c == ' ' || c == '\t' || c == '\n' || c == '\r' || c == '\x0b' || c == '\x0c'

/-- Python `str.strip()` (default whitespace). -/
def pyStrip (s : Str) : Str :=
  ((s.dropWhile pySpace).reverse.dropWhile pySpace).reverse

/-- Python `str.rstrip()`. -/
def pyRStrip (s : Str) : Str :=
  (s.reverse.dropWhile pySpace).reverse

/-- Python `str.upper()` (ASCII). -/
def upperStr (s : Str) : Str := s.map Char.toUpper

/-- Python `str.lower()` (ASCII). -/
def lowerStr (s : Str) : Str := s.map Char.toLower

/-- Whether the second list starts with the first (`str.startswith`). -/
def startsWithL : Str → Str → Bool
  | [], _ => true
  | _ :: _, [] => false
  | p :: ps, c :: cs => p == c && startsWithL ps cs

/-- Python substring containment `needle in hay`. -/
def occursIn (needle : Str) : Str → Bool
  | [] => needle.isEmpty
  | c :: rest => startsWithL needle (c :: rest) || occursIn needle rest

/-- Whether a single character occurs in the string. -/
def hasChar (s : Str) (c : Char) : Bool := s.any (· == c)

/-- Regex word character `\w` = `[a-zA-Z0-9_]` (ASCII). -/
def wordChar (c : Char) : Bool := c.isAlpha || c.isDigit || c == '_'

/-- First character of the identifier class `[a-zA-Z_]`. -/
def identStartChar (c : Char) : Bool := c.isAlpha || c == '_'

/-- Decimal rendering of a natural number. -/
def natChars (n : Nat) : Str := Nat.toDigits 10 n

/-- Decimal rendering of an integer, as Python string formatting does. -/
def intToChars (i : Int) : Str :=
  if i < 0 then '-' :: natChars i.natAbs else natChars i.toNat

/-! ## ToolRegistry._extract_tables

Model of `re.findall(r"\b(?:FROM|JOIN)\s+([a-zA-Z_][a-zA-Z0-9_]*)", sql, re.IGNORECASE)`
followed by lowercasing each capture.  The Python code builds a set; the model
returns the list of captures, which is membership-equivalent (the sanitizer
only tests emptiness and membership). -/

/-- Tries to read `FROM` or `JOIN` (case-insensitively) at the head. -/
def fromJoinAt : Str → Option Str
  | c1 :: c2 :: c3 :: c4 :: rest =>
    let u := [c1.toUpper, c2.toUpper, c3.toUpper, c4.toUpper]
    if u = strL "FROM" ∨ u = strL "JOIN" then some rest else none
  | _ => none

/-- One attempt of the table regex at the current position.  `boundaryOk`
says the previous character (or start of string) is not a word character,
which is what `\b` requires in front of `FROM`/`JOIN`.  On success returns the
captured identifier and the rest of the input after the match. -/
def matchTableAt (boundaryOk : Bool) (s : Str) : Option (Str × Str) :=
  if !boundaryOk then none else
  match fromJoinAt s with
  | none => none
  | some rest =>
    if (rest.takeWhile pySpace).isEmpty then none else
    match rest.dropWhile pySpace with
    | [] => none
    | c :: cs =>
      if identStartChar c then some (c :: cs.takeWhile wordChar, cs.dropWhile wordChar)
      else none

/-- Left-to-right scan of non-overlapping matches, as `re.findall` performs.
The fuel argument only serves termination; it is initialised to more than the
input length, which every step consumes. -/
def scanTables : Nat → Bool → Str → List Str
  | 0, _, _ => []
  | _, _, [] => []
  | fuel + 1, bOk, c :: rest =>
    match matchTableAt bOk (c :: rest) with
    | some (tbl, after) => lowerStr tbl :: scanTables fuel false after
    | none => scanTables fuel (!wordChar c) rest

/-- `ToolRegistry._extract_tables`: captures of the `FROM`/`JOIN` regex,
each lowercased. -/
def extract_tables (sql : Str) : List Str :=
  scanTables (sql.length + 1) true sql

/-! ## ToolRegistry._sanitize_select_sql -/

/-- The configured table allow-list (`ToolRegistry.__init__`): note the entry
`EHVOL` is stored in upper case. -/
def allowed_tables : List Str :=
  [strL "patients", strL "EHVOL", strL "patient_genomic_variants"]

/-- The forbidden DDL/DML keyword list of `_sanitize_select_sql`. -/
def forbidden_keywords : List Str :=
  [strL "DROP", strL "DELETE", strL "UPDATE", strL "INSERT",
   strL "ALTER", strL "CREATE", strL "TRUNCATE", strL "COPY"]

/-- `ToolRegistry._max_limit` (set in `__init__`). -/
def max_limit : Int := 500

/-- `ToolRegistry._sanitize_select_sql(sql, limit)`.  A raised `ValueError`
is modelled as `Except.error` carrying the message. -/
def sanitize_select_sql (sql0 : Str) (limit : Int) : Except String Str :=
  let sql := pyStrip sql0
  if sql.isEmpty then .error "SQL must not be empty"
  else if hasChar sql ';' then .error "Multiple SQL statements are not allowed"
  else
    let normalized := upperStr sql
    if !(startsWithL (strL "SELECT") normalized || startsWithL (strL "WITH") normalized) then
      .error "Only SELECT queries are allowed"
    else if forbidden_keywords.any (fun w => occursIn w normalized) then
      .error "Unsafe SQL detected"
    else
      let tables := extract_tables sql
      if !tables.isEmpty && !(tables.all (fun t => allowed_tables.any (fun a => a == t))) then
        .error "Query references disallowed tables"
      else
        let lim : Int := max 1 (min limit max_limit)
        if !(occursIn (strL "LIMIT") normalized) then
          .ok (sql ++ strL " LIMIT " ++ intToChars lim)
        else .ok sql

/-! ## IntentRouter (`app/services/intent_router.py`)

The keyword families below are copied from `IntentRouter.__init__`. -/

def rag_keywords : List Str :=
  [strL "rag", strL "note", strL "notes", strL "document", strL "free text",
   strL "narrative", strL "mention"]

def medical_keywords : List Str :=
  [strL "diagnosis", strL "diagnose", strL "treatment", strL "therapy",
   strL "medication", strL "drug", strL "side effect", strL "contraindication",
   strL "symptom", strL "risk", strL "risk factor", strL "clinical",
   strL "cardiology", strL "cardiac", strL "hypertension", strL "diabetes",
   strL "heart failure"]

def cohort_keywords : List Str :=
  [strL "cohort", strL "eligible", strL "inclusion", strL "exclusion",
   strL "filter", strL "criteria", strL "group"]

def data_keywords : List Str :=
  [strL "join", strL "group by", strL "chart", strL "plot", strL "graph",
   strL "visualize", strL "visualise", strL "table", strL "dataset"]

def ui_keywords : List Str :=
  [strL "open", strL "navigate", strL "go to", strL "dashboard", strL "registry",
   strL "analytics", strL "chart builder", strL "timeline", strL "dictionary"]

def sql_keywords : List Str :=
  [strL "count", strL "how many", strL "average", strL "mean", strL "median",
   strL "min", strL "max", strL "list", strL "show", strL "query", strL "sql",
   strL "age", strL "gender"]

/-- `IntentRouter._contains_any`. -/
def containsAny (text : Str) (keywords : List Str) : Bool :=
  keywords.any (fun k => occursIn k text)

/-- `IntentRouter.classify`. -/
def classify (message : Str) : String :=
  let text := lowerStr (pyStrip message)
  if text.isEmpty then "general"
  else if startsWithL (strL "select ") text || startsWithL (strL "with ") text then "data"
  else if containsAny text rag_keywords then "rag"
  else if containsAny text cohort_keywords then "cohort"
  else if containsAny text ui_keywords then "ui"
  else if containsAny text sql_keywords then "data"
  else if containsAny text data_keywords then "data"
  else if containsAny text medical_keywords then "medical"
  else "general"

/-! ## Retry wrapper (`_ainvoke_with_retries`, orchestrator.py lines 45-62)

The wrapped LLM call is modelled as a function from the attempt number to
either a response or an error (an arbitrary oracle covering timeout and
upstream failures).  Backoff sleeping and jitter do not influence the
returned value and are not modelled.  The Python loop runs attempts
`0 .. max_retries`, returns the first success, and re-raises the last
attempt's error after the final failure. -/

/-- The retry loop from attempt `attempt` with `remaining` further attempts
allowed after the current one.  With no attempt remaining the current
attempt's outcome is returned as-is (a success, or the re-raised final
error); otherwise a failure retries with the next attempt number. -/
def ainvokeGo (call : Nat → Except E R) : Nat → Nat → Except E R
  | attempt, 0 => call attempt
  | attempt, n + 1 =>
    match call attempt with
    | .ok r => .ok r
    | .error _ => ainvokeGo call (attempt + 1) n

/-- Number of attempts the retry loop performs before returning. -/
def ainvokeAttempts (call : Nat → Except E R) : Nat → Nat → Nat
  | _, 0 => 1
  | attempt, n + 1 =>
    match call attempt with
    | .ok _ => 1
    | .error _ => 1 + ainvokeAttempts call (attempt + 1) n

/-- `_ainvoke_with_retries(llm, prompt, timeout_s, max_retries)`: the
`llm`/`prompt`/timeout triple is abstracted into the attempt-indexed oracle
`call`. -/
def ainvoke_with_retries (call : Nat → Except E R) (maxRetries : Nat) : Except E R :=
  ainvokeGo call 0 maxRetries

/-! ## Python values and dicts

Python runtime values flowing through tool arguments, tool results, JSON
payloads and `AgentResult.metadata` are modelled by `JVal`; dicts are
insertion-ordered association lists, as in CPython.  Floats never occur in
the orchestration core's data flow and are not modelled. -/

inductive JVal where
  | null
  | b (v : Bool)
  | i (v : Int)
  | s (v : Str)
  | arr (items : List JVal)
  | obj (fields : List (String × JVal))

abbrev Dict := List (String × JVal)

/-- `d.get(k)` (first binding wins; dicts never hold duplicate keys). -/
def dictGet (d : Dict) (k : String) : Option JVal :=
  match d.find? (fun kv => kv.1 == k) with
  | some kv => some kv.2
  | none => none

/-- `d.get(k, default)`. -/
def dictGetD (d : Dict) (k : String) (dflt : JVal) : JVal :=
  (dictGet d k).getD dflt

/-- Python dict extension `{**d, k: v}`: replaces in place if the key exists,
appends otherwise. -/
def dictInsert (d : Dict) (k : String) (v : JVal) : Dict :=
  if d.any (fun kv => kv.1 == k) then d.map (fun kv => if kv.1 == k then (k, v) else kv)
  else d ++ [(k, v)]

/-- Python truthiness of a `JVal`. -/
def jTruthy : JVal → Bool
  | .null => false
  | .b v => v
  | .i n => n != 0
  | .s v => !v.isEmpty
  | .arr l => !l.isEmpty
  | .obj f => !f.isEmpty

/-- Digits-only decimal parse. -/
def parseDigits (s : Str) : Option Nat :=
  if !s.isEmpty && s.all Char.isDigit then
    some (s.foldl (fun a c => a * 10 + (c.toNat - 48)) 0)
  else none

/-- Integer literal parse, as accepted by Python `int(str)`. -/
def parseIntChars (s : Str) : Option Int :=
  match s with
  | '-' :: rest => (parseDigits rest).map (fun n => -(n : Int))
  | '+' :: rest => (parseDigits rest).map (fun n => (n : Int))
  | _ => (parseDigits s).map (fun n => (n : Int))

/-- Python `int(x)`: ints pass through, bools coerce, numeric strings parse,
everything else raises. -/
def pyIntOf : JVal → Except String Int
  | .i n => .ok n
  | .b true => .ok 1
  | .b false => .ok 0
  | .s v =>
    match parseIntChars (pyStrip v) with
    | some n => .ok n
    | none => .error "ValueError: invalid literal for int()"
  | _ => .error "TypeError: int() argument must not be a non-numeric object"

/-- Values the Python code immediately uses as `str` (e.g. calls `.lower()`
on); anything else raises. -/
def jStrVal : JVal → Except String Str
  | .s v => .ok v
  | _ => .error "TypeError: expected a string"

/-! ## ToolRegistry handlers (`app/services/tool_registry.py`)

The relational store is an external collaborator; it is modelled by the
oracle `DbEnv.exec` mapping (sql, bound parameters) to either rows (each row
a dict) or an execution error.  `patientColumns` models the cached result of
`_get_patient_columns` (the empty list also covers its failure path, which
caches an empty set). -/

structure DbEnv where
  patientColumns : List String
  exec : Str → Dict → Except String (List Dict)

/-- Case-insensitive word-bounded search: model of
`re.search(r"\b<word>\b", s, re.IGNORECASE)` for a word made of word
characters, given in lower case.  The helper threads the previous character
for the leading `\b`. -/
def hasWordCIGo (w : Str) : Option Char → Str → Bool
  | _, [] => false
  | prev, c :: rest =>
    ((match prev with | none => true | some p => !wordChar p) &&
     startsWithL w (lowerStr ((c :: rest).take w.length)) &&
     (match (c :: rest).drop w.length with | [] => true | d :: _ => !wordChar d))
    || hasWordCIGo w (some c) rest

def hasWordCI (w : Str) (s : Str) : Bool := hasWordCIGo w none s

/-- Model of `re.sub(r"\b<word>\b", repl, s, re.IGNORECASE)` for a word made
of word characters.  Scanning is left-to-right over the original string, the
fuel (initialised above the length) only serves termination. -/
def replaceWordGo (w repl : Str) : Nat → Option Char → Str → Str
  | 0, _, s => s
  | _, _, [] => []
  | fuel + 1, prev, c :: rest =>
    if ((match prev with | none => true | some p => !wordChar p) &&
        startsWithL w (lowerStr ((c :: rest).take w.length)) &&
        (match (c :: rest).drop w.length with | [] => true | d :: _ => !wordChar d)) then
      repl ++ replaceWordGo w repl fuel (((c :: rest).take w.length).getLast?) ((c :: rest).drop w.length)
    else c :: replaceWordGo w repl fuel (some c) rest

def replaceWordCI (w repl : Str) (s : Str) : Str :=
  replaceWordGo w repl (s.length + 1) none s

/-- `ToolRegistry._rewrite_sql_columns(sql, engine)`. -/
def rewrite_sql_columns (cols : List String) (sql : Str) : Str :=
  if sql.isEmpty then sql
  else if cols.isEmpty then sql
  else
    let r1 :=
      if cols.contains "current_city" && hasWordCI (strL "city") sql then
        replaceWordCI (strL "city") (strL "current_city") sql
      else sql
    if cols.contains "current_city_category" && hasWordCI (strL "city_category") r1 then
      replaceWordCI (strL "city_category") (strL "current_city_category") r1
    else r1

/-- `ToolRegistry.query_sql(args)`.  A sanitizer `ValueError` propagates as
`Except.error`; an execution error is caught and returned as a result record
with `error` populated and `count` 0. -/
def query_sql (db : DbEnv) (args : Dict) : Except String Dict := do
  let sql ← jStrVal (dictGetD args "sql" (.s []))
  let limit ← pyIntOf (dictGetD args "limit" (.i max_limit))
  let safe ← sanitize_select_sql (rewrite_sql_columns db.patientColumns sql) limit
  match db.exec safe [] with
  | .error e =>
    .ok [("rows", .arr []), ("count", .i 0), ("error", .s (strL e)), ("sql", .s safe)]
  | .ok rows =>
    .ok [("rows", .arr (rows.map .obj)), ("count", .i rows.length)]

/-- The Vega-Lite spec `chart_from_sql` builds on success. -/
def chartSpec (args : Dict) (data : List Dict) : JVal :=
  let encodingBase : Dict :=
    [("x", .obj [("field", dictGetD args "x" .null), ("type", dictGetD args "x_type" (.s (strL "ordinal")))]),
     ("y", .obj [("field", dictGetD args "y" .null), ("type", dictGetD args "y_type" (.s (strL "quantitative")))])]
  let encoding :=
    if jTruthy (dictGetD args "color" .null) then
      encodingBase ++ [("color", .obj [("field", dictGetD args "color" .null), ("type", .s (strL "nominal"))])]
    else encodingBase
  .obj [("$schema", .s (strL "https://vega.github.io/schema/vega-lite/v5.json")),
        ("description", .s (strL "Generated chart")),
        ("title", dictGetD args "title" (.s (strL "Chart"))),
        ("data", .obj [("values", .arr (data.map .obj))]),
        ("mark", dictGetD args "mark" (.s (strL "bar"))),
        ("encoding", .obj encoding)]

/-- `ToolRegistry.chart_from_sql(args)`. -/
def chart_from_sql (db : DbEnv) (args : Dict) : Except String Dict := do
  let sql ← jStrVal (dictGetD args "sql" (.s []))
  let limit ← pyIntOf (dictGetD args "limit" (.i max_limit))
  let safe ← sanitize_select_sql (rewrite_sql_columns db.patientColumns sql) limit
  match db.exec safe [] with
  | .error e =>
    .ok [("spec", .null), ("rows", .arr []), ("count", .i 0), ("error", .s (strL e)), ("sql", .s safe)]
  | .ok rows =>
    .ok [("spec", chartSpec args rows), ("rows", .arr (rows.map .obj)), ("count", .i rows.length)]

/-! ### build_cohort (`ToolRegistry.build_cohort`)

Each optional filter appends a condition string and (for most) a bound
parameter; the helpers below model one `if` block each, in source order.
The SQL template text is flattened onto one line (the surrounding
whitespace of the Python triple-quoted string carries no meaning). -/

def stepPlain (st : List Str × Dict) (args : Dict) (k : String) (cond : Str) :
    List Str × Dict :=
  match dictGet args k with
  | some .null => st
  | some v => (st.1 ++ [cond], st.2 ++ [(k, v)])
  | none => st

def stepBool (st : List Str × Dict) (args : Dict) (k : String) (cond : Str) :
    List Str × Dict :=
  match dictGet args k with
  | some .null => st
  | some v => (st.1 ++ [cond], st.2 ++ [(k, .b (jTruthy v))])
  | none => st

def stepIsTrue (st : List Str × Dict) (args : Dict) (k : String) (cond : Str) :
    List Str × Dict :=
  match dictGet args k with
  | some (.b true) => (st.1 ++ [cond], st.2)
  | _ => st

def stepGender (st : List Str × Dict) (args : Dict) :
    Except String (List Str × Dict) :=
  match dictGet args "gender" with
  | some v =>
    if jTruthy v then do
      let g ← jStrVal v
      .ok (st.1 ++ [strL "LOWER(gender) = :gender"], st.2 ++ [("gender", .s (lowerStr g))])
    else .ok st
  | none => .ok st

def stepRegion (st : List Str × Dict) (args : Dict) :
    Except String (List Str × Dict) :=
  match dictGet args "region" with
  | some v =>
    if jTruthy v then do
      let g ← jStrVal v
      .ok (st.1 ++ [strL "(LOWER(nationality) LIKE :region OR LOWER(current_city_category) LIKE :region OR LOWER(current_city) LIKE :region)"],
           st.2 ++ [("region", .s ('%' :: lowerStr g ++ ['%']))])
    else .ok st
  | none => .ok st

def stepGenomics (st : List Str × Dict) (args : Dict) : List Str × Dict :=
  match dictGet args "has_genomics" with
  | some .null => st
  | some v =>
    if jTruthy v then
      (st.1 ++ [strL "EXISTS (SELECT 1 FROM patient_genomic_variants v WHERE v.dna_id = patients.dna_id)"], st.2)
    else
      (st.1 ++ [strL "NOT EXISTS (SELECT 1 FROM patient_genomic_variants v WHERE v.dna_id = patients.dna_id)"], st.2)
  | none => st

/-- `ToolRegistry.build_cohort(args)`.  Note: unlike `query_sql` and
`chart_from_sql`, execution is NOT wrapped in a try/except — a database
error propagates to the caller. -/
def build_cohort (db : DbEnv) (args : Dict) : Except String Dict := do
  let st : List Str × Dict := ([], [])
  let st := stepPlain st args "age_min" (strL "age >= :age_min")
  let st := stepPlain st args "age_max" (strL "age <= :age_max")
  let st ← stepGender st args
  let st := stepBool st args "has_diabetes" (strL "COALESCE(diabetes_mellitus, false) = :has_diabetes")
  let st := stepBool st args "has_hypertension" (strL "COALESCE(high_blood_pressure, false) = :has_hypertension")
  let st := stepIsTrue st args "has_echo" (strL "echo_ef IS NOT NULL")
  let st := stepIsTrue st args "has_mri" (strL "mri_ef IS NOT NULL")
  let st := stepBool st args "has_imaging" (strL "((mri_ef IS NOT NULL OR echo_ef IS NOT NULL) = :has_imaging)")
  let st := stepBool st args "has_labs" (strL "((hba1c IS NOT NULL OR troponin_i IS NOT NULL) = :has_labs)")
  let st := stepBool st args "has_family_history" (strL "((COALESCE(history_sudden_death, false) OR COALESCE(history_premature_cad, false)) = :has_family_history)")
  let st ← stepRegion st args
  let st := stepGenomics st args
  let limit ← pyIntOf (dictGetD args "limit" (.i 100))
  let limit := min limit max_limit
  let whereClause := if st.1.isEmpty then strL "TRUE" else List.intercalate (strL " AND ") st.1
  let query := strL "SELECT dna_id, name, age, gender, diabetes_mellitus, high_blood_pressure, echo_ef, mri_ef, enrollment_date FROM patients WHERE "
      ++ whereClause ++ strL " ORDER BY enrollment_date DESC LIMIT " ++ intToChars limit
  match db.exec query st.2 with
  | .error e => .error e
  | .ok rows => .ok [("rows", .arr (rows.map .obj)), ("count", .i rows.length)]

/-- `ToolRegistry.call(tool, arguments)` restricted to the handlers the
orchestration claims exercise (`registry_overview` and `search_patients`
are plain parameterized I/O untouched by every claim and are not modelled;
dispatching to them is outside this development). -/
def registry_call (db : DbEnv) (tool : String) (args : Dict) : Except String Dict :=
  if tool = "query_sql" then query_sql db args
  else if tool = "chart_from_sql" then chart_from_sql db args
  else if tool = "build_cohort" then build_cohort db args
  else .error ("Unknown tool: " ++ tool)

/-! ## Agent data model (`orchestrator.py`) -/

structure ToolCallR where
  name : String
  arguments : Dict

structure AgentResult where
  content : Str
  agent : String
  tool_calls : List ToolCallR
  metadata : Dict

structure Msg where
  role : String
  content : Str

/-- ASCII single quote, written numerically. -/
def sq : Char := Char.ofNat 39

/-- Opening and closing curly braces, written numerically. -/
def lbrace : Char := Char.ofNat 123

def rbrace : Char := Char.ofNat 125

/-- Python `repr` of a value, as interpolated by f-strings for containers.
On strings it is approximated by plain single-quoting (repr escaping of
embedded quotes is not reproduced; none of the rendered values contain
them).  The fuel bounds nesting depth. -/
def pyReprJ : Nat → JVal → Str
  | _, .null => strL "None"
  | _, .b true => strL "True"
  | _, .b false => strL "False"
  | _, .i n => intToChars n
  | _, .s v => sq :: v ++ [sq]
  | 0, _ => []
  | fuel + 1, .arr items =>
    '[' :: List.intercalate (strL ", ") (items.map (pyReprJ fuel)) ++ [']']
  | fuel + 1, .obj fields =>
    lbrace :: List.intercalate (strL ", ")
      (fields.map (fun kv => sq :: strL kv.1 ++ [sq] ++ strL ": " ++ pyReprJ fuel kv.2)) ++ [rbrace]

/-- Python `str` of a value (f-string interpolation). -/
def pyStrJ (fuel : Nat) : JVal → Str
  | .s v => v
  | v => pyReprJ fuel v

/-! ## SqlAgentAdapter (`orchestrator.py` lines 65-139) -/

/-- The character class `[a-z\s-]` of the city regexes. -/
def cityClass (c : Char) : Bool := c.isLower || pySpace c || c == '-'

/-- Consumes one-or-more whitespace (`\s+`). -/
def ws1 (s : Str) : Option Str :=
  let t := s.dropWhile pySpace
  if t.length < s.length then some t else none

/-- Consumes a literal. -/
def lit (w : Str) (s : Str) : Option Str :=
  if startsWithL w s then some (s.drop w.length) else none

/-- Whether `\s+w1\s+w2...` matches at the head of the input. -/
def tailHolds : List Str → Str → Bool
  | [], _ => true
  | w :: rest, s =>
    match ws1 s with
    | none => false
    | some t => startsWithL w t && tailHolds rest (t.drop w.length)

/-- Lazy capture `([a-z\s-]+?)` followed by `\s+`-joined literal words: the
shortest non-empty class run after which the tail matches, exactly as the
non-greedy regex engine finds it. -/
def lazyGo (tailW : List Str) : Str → Str → Option Str
  | accRev, c :: rest =>
    if cityClass c then
      if tailHolds tailW rest then some (c :: accRev).reverse
      else lazyGo tailW (c :: accRev) rest
    else none
  | _, [] => none

/-- One attempt of `count\s+of\s+([a-z\s-]+?)\s+<tail words>` at the current
position (`\s+` is matched greedily; it never needs to backtrack here since
whitespace is disjoint from the literals that follow it). -/
def tryCountOf (tailW : List Str) (s : Str) : Option Str := do
  let s ← lit (strL "count") s
  let s ← ws1 s
  let s ← lit (strL "of") s
  let s ← ws1 s
  lazyGo tailW [] s

/-- Greedy capture `([a-z\s-]+)` with nothing after it: maximal munch. -/
def greedyCapture (s : Str) : Option Str :=
  let g := s.takeWhile cityClass
  if g.isEmpty then none else some g

/-- One attempt of `people\s+(?:in|from)\s+([a-z\s-]+)` at the current
position; the alternation tries `in` before `from`. -/
def tryPeople (s : Str) : Option Str := do
  let s ← lit (strL "people") s
  let s ← ws1 s
  match (do
      let t ← lit (strL "in") s
      let t ← ws1 t
      greedyCapture t) with
  | some g => some g
  | none => do
    let t ← lit (strL "from") s
    let t ← ws1 t
    greedyCapture t

/-- `re.search`: leftmost position at which the attempt succeeds. -/
def searchPos (attempt : Str → Option Str) : Str → Option Str
  | [] => none
  | c :: rest =>
    match attempt (c :: rest) with
    | some g => some g
    | none => searchPos attempt rest

/-- `SqlAgentAdapter._extract_city(text)`. -/
def extract_city (text : Str) : Option Str :=
  if text.isEmpty then none
  else
    let m := searchPos (tryCountOf [strL "people"]) text
    let m := match m with
      | some g => some g
      | none => searchPos tryPeople text
    let m := match m with
      | some g => some g
      | none => searchPos (tryCountOf [strL "in", strL "the", strL "dataset"]) text
    match m with
    | none => none
    | some raw =>
      let rawCity := pyStrip raw
      let safeCity := pyStrip (rawCity.filter cityClass)
      if safeCity.isEmpty then none else some safeCity

/-- The fixed COUNT-by-city template (note the extracted city is spliced into
the SQL text, as the source does). -/
def citySql (c : Str) : Str :=
  strL "SELECT COUNT(*) AS count FROM patients WHERE LOWER(current_city) = LOWER("
    ++ [sq] ++ c ++ [sq] ++ strL ")"

/-- The keyword-template chain of `_heuristic_sql` after the city check. -/
def heuristic_rest (text : Str) : Option Str :=
  if occursIn (strL "how many") text ||
     (occursIn (strL "count") text && occursIn (strL "patient") text) then
    some (strL "SELECT COUNT(*) AS count FROM EHVOL")
  else if occursIn (strL "average age") text then
    some (strL "SELECT AVG(age) AS avg_age FROM EHVOL WHERE age IS NOT NULL")
  else if occursIn (strL "age distribution") text then
    some (strL "SELECT age FROM EHVOL WHERE age IS NOT NULL")
  else if occursIn (strL "count") text && occursIn (strL "gender") text then
    some (strL "SELECT gender, COUNT(*) AS count FROM EHVOL GROUP BY gender")
  else if occursIn (strL "average") text && occursIn (strL "ef") text then
    some (strL "SELECT AVG(echo_ef) AS avg_ef FROM EHVOL WHERE echo_ef IS NOT NULL")
  else if occursIn (strL "registry overview") text || occursIn (strL "overview") text then
    some (strL "SELECT COUNT(*) AS total FROM EHVOL")
  else none

/-- `SqlAgentAdapter._heuristic_sql(message)`. -/
def heuristic_sql (message : Str) : Option Str :=
  let text := lowerStr message
  if occursIn (strL "select ") text then some text
  else
    match extract_city text with
    | some c =>
      if occursIn (strL "count") text || occursIn (strL "how many") text then some (citySql c)
      else heuristic_rest text
    | none => heuristic_rest text

/-- `SqlAgentAdapter._format_result(sql, result)`.  `rows[0]` is modelled
with a null default (the handlers always return `count == 1` together with a
one-element row list, so the default is unreachable from them). -/
def format_result (sqlStr : Str) (result : Dict) : Str :=
  let rows := match dictGetD result "rows" (.arr []) with
    | .arr l => l
    | _ => []
  let count := dictGetD result "count" (.i 0)
  if (match count with | .i n => n == 0 | _ => false) then
    strL "Query executed but returned no results."
  else if (match count with | .i n => n == 1 | _ => false) then
    strL "Query executed: " ++ sqlStr ++ strL "\nResult: " ++ pyStrJ 32 (rows.headD .null)
  else
    strL "Query executed: " ++ sqlStr ++ strL "\nReturned " ++ pyStrJ 32 count
      ++ strL " rows. Sample: " ++ pyReprJ 32 (.arr (rows.take 5))

/-! ## DataAgentAdapter helpers (`orchestrator.py` lines 237-396) -/

/-- `DataAgentAdapter._ensure_limit(sql, limit)`. -/
def ensure_limit (sqlStr : Str) (limit : Int) : Str :=
  if hasWordCI (strL "limit") sqlStr then sqlStr
  else pyRStrip sqlStr ++ strL " LIMIT " ++ intToChars limit

/-- `DataAgentAdapter._sanitize_sql(sql)`: returns the empty string to
signal rejection. -/
def adapter_sanitize_sql (sqlStr : Str) : Str :=
  if sqlStr.isEmpty then []
  else
    let lowered := lowerStr (pyStrip sqlStr)
    if !(startsWithL (strL "select ") lowered || startsWithL (strL "with ") lowered) then []
    else if [strL ";", strL "insert ", strL "update ", strL "delete ",
             strL "drop ", strL "alter ", strL "create "].any (fun t => occursIn t lowered) then []
    else pyStrip sqlStr

/-- `DataAgentAdapter._allowed_marks`. -/
def allowed_marks : List Str :=
  [strL "bar", strL "line", strL "area", strL "point", strL "tick", strL "boxplot"]

/-- `DataAgentAdapter._sanitize_mark(mark)`: `(mark or "")` turns falsy
values into the empty string; a truthy non-string raises in `.strip()`. -/
def sanitize_mark (mark : JVal) : Except String Str :=
  if jTruthy mark then do
    let m ← jStrVal mark
    let cleaned := lowerStr (pyStrip m)
    .ok (if allowed_marks.contains cleaned then cleaned else strL "bar")
  else .ok (strL "bar")

/-! ## JSON (`json.loads` / `json.dumps`)

`json.loads` is modelled by a recursive-descent parser on the JSON subset
the data-agent payloads inhabit: objects, arrays, strings with the basic
escapes, integers, booleans and null (floats and `\u` escapes make the model
parser fail where Python would succeed; no payload in any claim contains
them).  The fuel arguments only serve termination. -/

def jSkipWs (s : Str) : Str :=
  s.dropWhile (fun c => c == ' ' || c == '\t' || c == '\n' || c == '\r')

/-- JSON string body after the opening quote: returns content and rest. -/
def parseJString : Str → Option (Str × Str)
  | [] => none
  | '"' :: rest => some ([], rest)
  | '\\' :: e :: rest =>
    (match (if e == '"' then some '"'
            else if e == '\\' then some '\\'
            else if e == '/' then some '/'
            else if e == 'n' then some '\n'
            else if e == 't' then some '\t'
            else if e == 'r' then some '\r'
            else none) with
     | some c => (parseJString rest).map (fun p => (c :: p.1, p.2))
     | none => none)
  | c :: rest => (parseJString rest).map (fun p => (c :: p.1, p.2))

def digitsVal (l : Str) : Nat :=
  l.foldl (fun a c => a * 10 + (c.toNat - 48)) 0

/-- JSON integer (a fractional part or exponent fails the model parser). -/
def parseJNumber (s : Str) : Option (Int × Str) :=
  let core : Str → Option (Nat × Str) := fun t =>
    let ds := t.takeWhile Char.isDigit
    let after := t.drop ds.length
    if ds.isEmpty then none
    else if (match after with
             | c :: _ => c == '.' || c == 'e' || c == 'E'
             | [] => false) then none
    else some (digitsVal ds, after)
  match s with
  | '-' :: rest => (core rest).map (fun p => (-(p.1 : Int), p.2))
  | _ => (core s).map (fun p => ((p.1 : Int), p.2))

mutual

def parseJVal : Nat → Str → Option (JVal × Str)
  | 0, _ => none
  | fuel + 1, s0 =>
    let s := jSkipWs s0
    if startsWithL (strL "null") s then some (.null, s.drop 4)
    else if startsWithL (strL "true") s then some (.b true, s.drop 4)
    else if startsWithL (strL "false") s then some (.b false, s.drop 5)
    else
      match s with
      | '"' :: rest => (parseJString rest).map (fun p => (JVal.s p.1, p.2))
      | '[' :: rest =>
        (match jSkipWs rest with
         | ']' :: r2 => some (JVal.arr [], r2)
         | _ => (parseJItems fuel rest).map (fun p => (JVal.arr p.1, p.2)))
      | c :: rest =>
        if c == lbrace then
          (match jSkipWs rest with
           | d :: r2 =>
             if d == rbrace then some (JVal.obj [], r2)
             else (parseJFields fuel rest).map (fun p => (JVal.obj p.1, p.2))
           | [] => none)
        else (parseJNumber (c :: rest)).map (fun p => (JVal.i p.1, p.2))
      | [] => none

def parseJItems : Nat → Str → Option (List JVal × Str)
  | 0, _ => none
  | fuel + 1, s => do
    let (v, r) ← parseJVal fuel s
    match jSkipWs r with
    | ',' :: r2 => (parseJItems fuel r2).map (fun p => (v :: p.1, p.2))
    | ']' :: r2 => some ([v], r2)
    | _ => none

def parseJFields : Nat → Str → Option (List (String × JVal) × Str)
  | 0, _ => none
  | fuel + 1, s =>
    match jSkipWs s with
    | '"' :: rest => do
      let (k, r) ← parseJString rest
      match jSkipWs r with
      | ':' :: r2 => do
        let (v, r3) ← parseJVal fuel r2
        (match jSkipWs r3 with
         | ',' :: r4 => (parseJFields fuel r4).map (fun p => ((String.mk k, v) :: p.1, p.2))
         | c :: r4 => if c == rbrace then some ([(String.mk k, v)], r4) else none
         | [] => none)
      | _ => none
    | _ => none

end

/-- `json.loads(s)` (None on any parse error): the whole input, modulo
surrounding whitespace, must be one JSON value. -/
def jsonLoads (s : Str) : Option JVal :=
  match parseJVal (2 * s.length + 2) s with
  | some (v, rest) => if (jSkipWs rest).isEmpty then some v else none
  | none => none

/-- Removal of all occurrences of the fence pattern of
`re.sub(r"<fence>json|<fence>", "", text, flags=IGNORECASE)`, where the
fence is three backticks; the alternation prefers the `json`-suffixed form
at each position, and only the letters are case-insensitive. -/
def removeFencesGo : Nat → Str → Str
  | 0, s => s
  | _, [] => []
  | fuel + 1, c :: rest =>
    let bt := Char.ofNat 96
    if (c :: rest).take 3 = [bt, bt, bt] ∧
       lowerStr (((c :: rest).drop 3).take 4) = strL "json" then
      removeFencesGo fuel ((c :: rest).drop 7)
    else if (c :: rest).take 3 = [bt, bt, bt] then
      removeFencesGo fuel ((c :: rest).drop 3)
    else c :: removeFencesGo fuel rest

def removeFences (s : Str) : Str := removeFencesGo (s.length + 1) s

/-- The leftmost match of `re.search(r"\{[\s\S]*\}", text)`: from the first
opening brace through the last closing brace, provided the latter comes
after the former. -/
def braceSpan (text : Str) : Option Str :=
  let pre := text.dropWhile (fun c => !(c == lbrace))
  match pre with
  | [] => none
  | _ =>
    let cut := pre.reverse.dropWhile (fun c => !(c == rbrace))
    match cut with
    | [] => none
    | _ => some cut.reverse

/-- `DataAgentAdapter._extract_json(text)`. -/
def extract_json (text : Str) : Option JVal :=
  if text.isEmpty then none
  else
    match jsonLoads text with
    | some v => some v
    | none =>
      let cleaned := pyStrip (removeFences text)
      match jsonLoads cleaned with
      | some v => some v
      | none =>
        match braceSpan text with
        | none => none
        | some sub => jsonLoads sub

/-! ## json.dumps renderers used by prompt builders -/

def jsonEscapeChar (c : Char) : Str :=
  if c == '"' then ['\\', '"']
  else if c == '\\' then ['\\', '\\']
  else if c == '\n' then ['\\', 'n']
  else if c == '\t' then ['\\', 't']
  else if c == '\r' then ['\\', 'r']
  else [c]

def jsonEscape (s : Str) : Str :=
  s.foldr (fun c acc => jsonEscapeChar c ++ acc) []

/-- `json.dumps(v, ensure_ascii=False)`: compact form with the default
separators. -/
def jsonDumpsC : Nat → JVal → Str
  | _, .null => strL "null"
  | _, .b true => strL "true"
  | _, .b false => strL "false"
  | _, .i n => intToChars n
  | _, .s v => '"' :: jsonEscape v ++ ['"']
  | 0, _ => []
  | fuel + 1, .arr items =>
    '[' :: List.intercalate (strL ", ") (items.map (jsonDumpsC fuel)) ++ [']']
  | fuel + 1, .obj fields =>
    lbrace :: List.intercalate (strL ", ")
      (fields.map (fun kv => '"' :: jsonEscape (strL kv.1) ++ ['"'] ++ strL ": " ++ jsonDumpsC fuel kv.2))
      ++ [rbrace]

def indentN (n : Nat) : Str := List.replicate (2 * n) ' '

/-- `json.dumps(v, ensure_ascii=False, indent=2)`. -/
def jsonDumpsI : Nat → Nat → JVal → Str
  | _, _, .null => strL "null"
  | _, _, .b true => strL "true"
  | _, _, .b false => strL "false"
  | _, _, .i n => intToChars n
  | _, _, .s v => '"' :: jsonEscape v ++ ['"']
  | 0, _, _ => []
  | _ + 1, _, .arr [] => strL "[]"
  | _ + 1, _, .obj [] => [lbrace, rbrace]
  | fuel + 1, lvl, .arr items =>
    '[' :: '\n' ::
      (List.intercalate (strL ",\n")
        (items.map (fun v => indentN (lvl + 1) ++ jsonDumpsI fuel (lvl + 1) v))
       ++ '\n' :: indentN lvl ++ [']'])
  | fuel + 1, lvl, .obj fields =>
    lbrace :: '\n' ::
      (List.intercalate (strL ",\n")
        (fields.map (fun kv =>
          indentN (lvl + 1) ++ '"' :: jsonEscape (strL kv.1) ++ ['"'] ++ strL ": "
            ++ jsonDumpsI fuel (lvl + 1) kv.2))
       ++ '\n' :: indentN lvl ++ [rbrace])

/-! ## Prompt builders -/

def lastN (n : Nat) (l : List α) : List α := l.drop (l.length - n)

/-- The shared `history_block` construction (`history[-6:]` joined by
newlines). -/
def historyBlock (hist : List Msg) : Str :=
  if hist.isEmpty then []
  else List.intercalate (strL "\n")
    ((lastN 6 hist).map (fun m => strL m.role ++ strL ": " ++ m.content))

/-- `DataAgentAdapter._build_prompt`. -/
def data_build_prompt (message : Str) (hist : List Msg) : Str :=
  strL "You are a data agent. Decide whether to generate SQL or a chart. Return ONLY JSON with keys: action (query_sql|chart_from_sql), sql, mark, x, y, color, title. Use only tables: patients, EHVOL. Ensure SQL is SELECT-only.\n\nConversation history:\n"
    ++ historyBlock hist ++ strL "\n\nUser request: " ++ message ++ strL "\n"

/-- `ChatOrchestrator._route_with_llm`: the routing prompt. -/
def buildRoutePrompt (message : Str) (hist : List Msg) : Str :=
  strL "You are an orchestrator. Route the user request to exactly one intent from: data, medical, rag, cohort, ui, general. Return ONLY the intent string.\n\nConversation history:\n"
    ++ historyBlock hist ++ strL "\n\nUser request: " ++ message ++ strL "\n"

/-- `MedicalAgentAdapter._build_handoff_prompt`. -/
def build_handoff_prompt (message : Str) (hist : List Msg) (r : AgentResult) : Str :=
  let toolCallBlock :=
    if r.tool_calls.isEmpty then []
    else List.intercalate (strL "\n")
      (r.tool_calls.map (fun tc =>
        strL "- " ++ strL tc.name ++ strL ": " ++ jsonDumpsC 32 (.obj tc.arguments)))
  let metadataBlock :=
    if r.metadata.isEmpty then [] else jsonDumpsI 32 0 (.obj r.metadata)
  strL "You are a medical reasoning assistant. A specialist agent already executed tools and gathered data. Use the tool results to provide the final response. Be explicit about uncertainty and avoid definitive diagnoses. If results are insufficient, ask concise clarifying questions.\n\nConversation history:\n"
    ++ historyBlock hist ++ strL "\n\nUser question: " ++ message
    ++ strL "\n\nSpecialist agent: " ++ strL r.agent
    ++ strL "\nSpecialist summary:\n" ++ r.content
    ++ strL "\n\nTool calls:\n" ++ (if toolCallBlock.isEmpty then strL "None" else toolCallBlock)
    ++ strL "\n\nMetadata:\n" ++ (if metadataBlock.isEmpty then strL "None" else metadataBlock)
    ++ strL "\n"

/-! ## DataAgentAdapter.run

The data LLM (an external backend) is an oracle from (prompt, attempt) to
response content or failure, wrapped by the retry policy exactly as
`_ainvoke_with_retries` is applied in the source.  `sqlDefaultLimit` models
`settings.sql_agent_default_limit` (200 by default, configurable). -/

structure DataEnv where
  maxRetries : Nat
  sqlDefaultLimit : Int
  dataLlm : Str → Nat → Except String Str
  db : DbEnv

def cannedParseMsg : Str :=
  strL "I couldn" ++ [sq]
    ++ strL "t parse a structured plan. Please rephrase the request with desired chart or SQL details."

def askStatsMsg : Str :=
  strL "Ask about patient counts, averages, or registry statistics."

/-- The `except` branch of `DataAgentAdapter.run`: heuristic SQL fallback.
Note `tool_registry.call` is not guarded here, so a sanitizer `ValueError`
(e.g. the EHVOL templates) propagates out of the agent. -/
def dataAgentFallback (env : DataEnv) (message : Str) : Except String AgentResult :=
  match heuristic_sql message with
  | none => .ok ⟨askStatsMsg, "data", [], []⟩
  | some sql0 =>
    let sqlL := ensure_limit sql0 env.sqlDefaultLimit
    match registry_call env.db "query_sql" [("sql", .s sqlL), ("limit", .i env.sqlDefaultLimit)] with
    | .error e => .error e
    | .ok result =>
      .ok ⟨format_result sqlL result, "data",
           [⟨"query_sql", [("sql", .s sqlL), ("limit", .i env.sqlDefaultLimit)]⟩],
           [("count", dictGetD result "count" (.i 0)), ("fallback", .s (strL "heuristic"))]⟩

/-- The parsed-payload continuation of `DataAgentAdapter.run`. -/
def dataPayloadRun (env : DataEnv) (payload : Dict) : Except String AgentResult := do
  let action := dictGetD payload "action" (.s (strL "query_sql"))
  if (match action with | .s a => a == strL "chart_from_sql" | _ => false) then
    let sqlArg := dictGetD payload "sql" .null
    let sqlS ← (if jTruthy sqlArg then jStrVal sqlArg else .ok [])
    let sqlClean := adapter_sanitize_sql sqlS
    let mark ← sanitize_mark (dictGetD payload "mark" (.s (strL "bar")))
    let args : Dict :=
      [("sql", .s sqlClean), ("mark", .s mark), ("x", dictGetD payload "x" .null),
       ("y", dictGetD payload "y" .null), ("color", dictGetD payload "color" .null),
       ("title", dictGetD payload "title" (.s (strL "Chart")))]
    if !(jTruthy (dictGetD args "sql" .null)) || !(jTruthy (dictGetD args "x" .null))
       || !(jTruthy (dictGetD args "y" .null)) then
      .ok ⟨strL "Chart requests need sql, x, and y fields. Please clarify.", "data", [], []⟩
    else do
      let result ← registry_call env.db "chart_from_sql" args
      let summary := strL "Generated chart " ++ [sq]
        ++ pyStrJ 32 (dictGetD args "title" (.s (strL "Chart"))) ++ [sq]
        ++ strL " with " ++ pyStrJ 32 (dictGetD result "count" (.i 0)) ++ strL " rows."
      .ok ⟨summary, "data", [⟨"chart_from_sql", args⟩], [("chart", dictGetD result "spec" .null)]⟩
  else do
    let sqlArg := dictGetD payload "sql" .null
    let sqlS ← (if jTruthy sqlArg then jStrVal sqlArg else .ok [])
    let sqlClean := adapter_sanitize_sql sqlS
    if sqlClean.isEmpty then
      .ok ⟨strL "Please provide a query intent so I can generate SQL.", "data", [], []⟩
    else
      let sqlL := ensure_limit sqlClean env.sqlDefaultLimit
      let args : Dict := [("sql", .s sqlL), ("limit", .i env.sqlDefaultLimit)]
      do
        let result ← registry_call env.db "query_sql" args
        .ok ⟨format_result sqlL result, "data", [⟨"query_sql", args⟩],
             [("count", dictGetD result "count" (.i 0))]⟩

/-- `DataAgentAdapter.run(message, history, tool_registry)`. -/
def dataAgentRun (env : DataEnv) (message : Str) (hist : List Msg) : Except String AgentResult :=
  match ainvoke_with_retries (env.dataLlm (data_build_prompt message hist)) env.maxRetries with
  | .error _ => dataAgentFallback env message
  | .ok content =>
    match extract_json content with
    | none => .ok ⟨cannedParseMsg, "data", [], []⟩
    | some payload =>
      if !(jTruthy payload) then .ok ⟨cannedParseMsg, "data", [], []⟩
      else
        match payload with
        | .obj fields => dataPayloadRun env fields
        | _ => .error "AttributeError: payload has no attribute get"

/-! ## ChatOrchestrator (`orchestrator.py` lines 490-603)

The orchestrator is parametrized over its agent table (`agentRun` maps the
dispatched agent's name to its behaviour: the claims quantify over the
specialist's returned `AgentResult`), over the routing LLM and over the
medical agent's LLM, each an oracle from (prompt, attempt) to content or
failure wrapped by the retry policy at the same points as the source.
`audit_event` calls are fire-and-forget logging that never feeds back into
a returned value and are not modelled.  The concrete `MedicalAgentAdapter`
has a `run_handoff` method, so the `hasattr` fallback branch of `run` is
unreachable and not modelled. -/

structure OrchCfg where
  useLlmRouter : Bool
  maxRetries : Nat
  routeLlm : Str → Nat → Except String Str
  medHandoffLlm : Str → Nat → Except String Str
  agentRun : String → Str → List Msg → Except String AgentResult

def allowed_intents : List String :=
  ["data", "medical", "rag", "cohort", "ui", "general"]

/-- The response post-processing of `_route_with_llm`: strip, lower, remove
non-letters, map the `sql`/`coding` synonyms, and keep only recognized
intents. -/
def parseRoutedIntent (content : Str) : Option String :=
  let filtered := ((pyStrip content).map Char.toLower).filter Char.isLower
  let s := String.mk filtered
  let s := if s = "sql" ∨ s = "coding" then "data" else s
  if allowed_intents.contains s then some s else none

/-- `ChatOrchestrator._route_with_llm(message, history)`: `None` when no
router LLM is configured or the response is not a recognized intent; a
retry-exhausted failure propagates as an error. -/
def routeWithLlm (cfg : OrchCfg) (message : Str) (hist : List Msg) :
    Except String (Option String) :=
  if !cfg.useLlmRouter then .ok none
  else
    match ainvoke_with_retries (cfg.routeLlm (buildRoutePrompt message hist)) cfg.maxRetries with
    | .error e => .error e
    | .ok content => .ok (parseRoutedIntent content)

/-- The classification stage of `ChatOrchestrator.run`: heuristic intent,
optionally escalated to the LLM router when it is `general`. -/
def routedIntent (cfg : OrchCfg) (message : Str) (hist : List Msg) :
    Except String String :=
  let intent0 := classify message
  if cfg.useLlmRouter ∧ intent0 = "general" then
    match routeWithLlm cfg message hist with
    | .error e => .error e
    | .ok (some i) => .ok i
    | .ok none => .ok intent0
  else .ok intent0

/-- `ChatOrchestrator._normalize_intent`. -/
def normalize_intent (i : String) : String :=
  if i = "sql" ∨ i = "coding" then "data" else i

/-- `self._agents.get(intent, self._agents["general"])`, identifying each
adapter by its `name` (the `sql` and `coding` keys alias the data adapter). -/
def dispatchedAgent (intent : String) : String :=
  if intent = "data" ∨ intent = "medical" ∨ intent = "rag" ∨ intent = "cohort"
     ∨ intent = "ui" ∨ intent = "general" then intent
  else if intent = "sql" ∨ intent = "coding" then "data"
  else "general"

/-- `MedicalAgentAdapter.run_handoff(message, history, agent_result)`. -/
def run_handoff (cfg : OrchCfg) (message : Str) (hist : List Msg) (r : AgentResult) :
    Except String AgentResult :=
  match ainvoke_with_retries (cfg.medHandoffLlm (build_handoff_prompt message hist r)) cfg.maxRetries with
  | .error e => .error e
  | .ok content =>
    .ok ⟨content, "medical", r.tool_calls,
         dictInsert r.metadata "handoff_from" (.s (strL r.agent))⟩

/-- The dispatch-and-handoff tail of `ChatOrchestrator.run`, given the
routed intent. -/
def dispatchFromIntent (cfg : OrchCfg) (message : Str) (hist : List Msg)
    (intent0 : String) : Except String AgentResult :=
  let intent := normalize_intent intent0
  match cfg.agentRun (dispatchedAgent intent) message hist with
  | .error e => .error e
  | .ok r =>
    if r.agent ≠ "medical" then run_handoff cfg message hist r
    else .ok r

/-- `ChatOrchestrator.run(message, history, request_id)`. -/
def orchRun (cfg : OrchCfg) (message : Str) (hist : List Msg) :
    Except String AgentResult :=
  match routedIntent cfg message hist with
  | .error e => .error e
  | .ok intent0 => dispatchFromIntent cfg message hist intent0

/-! ## Concrete environments used by witnesses and counterexamples -/

/-- A database whose every execution fails (e.g. connection refused). -/
def dbDown : DbEnv := ⟨[], fun _ _ => .error "connection refused"⟩

/-- A database that returns no rows. -/
def dbEmpty : DbEnv := ⟨[], fun _ _ => .ok []⟩

/-- Data-agent environment whose model responds with unparseable text. -/
def envParseFail : DataEnv := ⟨2, 200, fun _ _ => .ok (strL "this is not json"), dbEmpty⟩

/-- Data-agent environment whose model is unavailable on every attempt. -/
def envLlmDown : DataEnv := ⟨2, 200, fun _ _ => .error "llm down", dbEmpty⟩

/-- A cohort result used to exercise the mandatory handoff. -/
def rcCohort : AgentResult :=
  ⟨strL "Built cohort with 1 patients.", "cohort",
   [⟨"build_cohort", [("has_diabetes", .b true)]⟩], []⟩

/-- Orchestrator with the LLM router disabled, a cohort specialist, and a
healthy medical LLM. -/
def cfgCohort : OrchCfg :=
  ⟨false, 2, fun _ _ => .error "unused", fun _ _ => .ok (strL "reviewed"),
   fun _ _ _ => .ok rcCohort⟩

/-- Orchestrator whose routing LLM fails on every attempt. -/
def cfgRouteDown : OrchCfg :=
  ⟨true, 2, fun _ _ => .error "llm down", fun _ _ => .ok (strL "m"),
   fun _ _ _ => .ok ⟨strL "hi", "general", [], []⟩⟩

/-- Orchestrator whose routing LLM answers with an unrecognized intent. -/
def cfgRouteBanana : OrchCfg :=
  ⟨true, 2, fun _ _ => .ok (strL "Banana!"), fun _ _ => .ok (strL "m"),
   fun _ _ _ => .ok ⟨strL "hi", "general", [], []⟩⟩

/-! # Theorems -/

/-- Any SQL whose (stripped) text contains a semicolon is rejected. -/
lemma sanitize_err_of_semicolon (sql0 : Str) (limit : Int)
    (h : hasChar (pyStrip sql0) ';' = true) :
    ∃ msg, sanitize_select_sql sql0 limit = .error msg := by
  unfold sanitize_select_sql
  cases h1 : (pyStrip sql0).isEmpty
  · exact ⟨"Multiple SQL statements are not allowed", by simp [h1, h]⟩
  · exact ⟨"SQL must not be empty", by simp [h1]⟩

/-- Any SQL whose uppercased (stripped) text contains a forbidden DDL/DML
keyword as a substring is rejected. -/
lemma sanitize_err_of_keyword (sql0 : Str) (limit : Int)
    (h : ∃ w ∈ forbidden_keywords, occursIn w (upperStr (pyStrip sql0)) = true) :
    ∃ msg, sanitize_select_sql sql0 limit = .error msg := by
  have hany : forbidden_keywords.any (fun w => occursIn w (upperStr (pyStrip sql0))) = true := by
    rw [List.any_eq_true]
    obtain ⟨w, hw, ho⟩ := h
    exact ⟨w, hw, ho⟩
  unfold sanitize_select_sql
  cases h1 : (pyStrip sql0).isEmpty
  · cases h2 : hasChar (pyStrip sql0) ';'
    · cases h3 : (startsWithL (strL "SELECT") (upperStr (pyStrip sql0))
          || startsWithL (strL "WITH") (upperStr (pyStrip sql0)))
      · exact ⟨"Only SELECT queries are allowed", by simp [h1, h2, h3]⟩
      · exact ⟨"Unsafe SQL detected", by simp [h1, h2, h3, hany]⟩
    · exact ⟨"Multiple SQL statements are not allowed", by simp [h1, h2]⟩
  · exact ⟨"SQL must not be empty", by simp [h1]⟩

/-- Any SQL one of whose extracted (lowercased) `FROM`/`JOIN` table names is
not in the allow-list is rejected. -/
lemma sanitize_err_of_table (sql0 : Str) (limit : Int)
    (h : ∃ t ∈ extract_tables (pyStrip sql0), t ∉ allowed_tables) :
    ∃ msg, sanitize_select_sql sql0 limit = .error msg := by
  obtain ⟨t, htm, htn⟩ := h
  have hne : (extract_tables (pyStrip sql0)).isEmpty = false := by
    rcases hx : extract_tables (pyStrip sql0) with _ | ⟨a, l⟩
    · rw [hx] at htm
      exact absurd htm (List.not_mem_nil t)
    · rfl
  have hall : (extract_tables (pyStrip sql0)).all
      (fun u => allowed_tables.any (fun a => a == u)) = false := by
    by_contra hc
    rw [Bool.not_eq_false, List.all_eq_true] at hc
    have hmem := hc t htm
    rw [List.any_eq_true] at hmem
    obtain ⟨a, ha, hb⟩ := hmem
    rw [beq_iff_eq] at hb
    exact htn (hb ▸ ha)
  unfold sanitize_select_sql
  cases h1 : (pyStrip sql0).isEmpty
  · cases h2 : hasChar (pyStrip sql0) ';'
    · cases h3 : (startsWithL (strL "SELECT") (upperStr (pyStrip sql0))
          || startsWithL (strL "WITH") (upperStr (pyStrip sql0)))
      · exact ⟨"Only SELECT queries are allowed", by simp [h1, h2, h3]⟩
      · cases h4 : forbidden_keywords.any (fun w => occursIn w (upperStr (pyStrip sql0)))
        · exact ⟨"Query references disallowed tables", by simp [h1, h2, h3, h4, hne, hall]⟩
        · exact ⟨"Unsafe SQL detected", by simp [h1, h2, h3, h4]⟩
    · exact ⟨"Multiple SQL statements are not allowed", by simp [h1, h2]⟩
  · exact ⟨"SQL must not be empty", by simp [h1]⟩

/-- C2: for every SQL string that (after stripping surrounding whitespace)
contains a semicolon, or contains one of the forbidden keywords DROP,
DELETE, UPDATE, INSERT, ALTER, CREATE, TRUNCATE, COPY as a substring of its
uppercased text, or whose FROM/JOIN clauses reference a table name outside
the configured allow-list, and for every requested limit,
`_sanitize_select_sql` raises a ValueError rather than returning a
sanitized query — regardless of casing (the keyword test is performed on
the uppercased text, the table test on lowercased names) and of whether a
LIMIT clause is present (the limit handling only happens after every
rejection check). -/
theorem C2_sanitizer_fails_closed (sql : Str) (limit : Int)
    (h : hasChar (pyStrip sql) ';' = true
       ∨ (∃ w ∈ forbidden_keywords, occursIn w (upperStr (pyStrip sql)) = true)
       ∨ (∃ t ∈ extract_tables (pyStrip sql), t ∉ allowed_tables)) :
    ∃ msg, sanitize_select_sql sql limit = .error msg := by
  rcases h with h | h | h
  · exact sanitize_err_of_semicolon sql limit h
  · exact sanitize_err_of_keyword sql limit h
  · exact sanitize_err_of_table sql limit h

/-- Witness for C2 at the spec's own example input. -/
theorem C2_witness :
    hasChar (pyStrip (strL "SELECT * FROM patients; DROP TABLE patients")) ';' = true
    ∧ (∃ msg, sanitize_select_sql (strL "SELECT * FROM patients; DROP TABLE patients") 100 = .error msg) :=
  ⟨by decide, C2_sanitizer_fails_closed _ 100 (Or.inl (by decide))⟩

/-- C9: every SQL whose FROM/JOIN clauses reference the EHVOL table in any
casing is rejected by the sanitizer (the extracted name is lowercased to
"ehvol" while the allow-list stores "EHVOL", so the subset test never
succeeds); in particular the heuristic "how many" COUNT template targets
EHVOL and is rejected at validation time with "Query references disallowed
tables". -/
theorem C9_ehvol_always_rejected :
    (∀ sql limit, strL "ehvol" ∈ extract_tables (pyStrip sql) →
       ∃ msg, sanitize_select_sql sql limit = .error msg)
    ∧ heuristic_sql (strL "how many patients are there")
        = some (strL "SELECT COUNT(*) AS count FROM EHVOL")
    ∧ sanitize_select_sql (strL "SELECT COUNT(*) AS count FROM EHVOL") 200
        = .error "Query references disallowed tables" := by
  refine ⟨?_, rfl, rfl⟩
  intro sql limit hmem
  exact sanitize_err_of_table sql limit ⟨strL "ehvol", hmem, by decide⟩

/-- Witness for C9 at a lowercase-cased EHVOL reference. -/
theorem C9_witness :
    strL "ehvol" ∈ extract_tables (pyStrip (strL "select * from EHVOL"))
    ∧ (∃ msg, sanitize_select_sql (strL "select * from EHVOL") 50 = .error msg) :=
  ⟨by decide, C9_ehvol_always_rejected.1 _ 50 (by decide)⟩

/-- C10: the forbidden-keyword test is a substring check over the entire
uppercased SQL, so `SELECT created_at FROM patients` — a single
semicolon-free SELECT referencing only the allow-listed `patients` table —
is rejected with "Unsafe SQL detected" because CREATE occurs inside
CREATED_AT. -/
theorem C10_keyword_substring_false_positive :
    sanitize_select_sql (strL "SELECT created_at FROM patients") 50 = .error "Unsafe SQL detected"
    ∧ occursIn (strL "CREATE") (upperStr (pyStrip (strL "SELECT created_at FROM patients"))) = true
    ∧ hasChar (strL "SELECT created_at FROM patients") ';' = false
    ∧ extract_tables (pyStrip (strL "SELECT created_at FROM patients")) = [strL "patients"] :=
  ⟨rfl, by decide, by decide, by decide⟩

/-- Counterexample to C5 as stated: with requested limit 0 the sanitizer
appends `LIMIT 1`, not `LIMIT min(0, 500) = 0`; and with surrounding
whitespace the output is the stripped input, not the input itself, so the
output is not "the input with ` LIMIT m` appended". -/
theorem C5_counterexample :
    sanitize_select_sql (strL "SELECT * FROM patients") 0
      = .ok (strL "SELECT * FROM patients LIMIT 1")
    ∧ strL "SELECT * FROM patients LIMIT 1"
        ≠ strL "SELECT * FROM patients" ++ strL " LIMIT " ++ intToChars (min 0 max_limit)
    ∧ sanitize_select_sql (strL " SELECT * FROM patients") 7
      = .ok (strL "SELECT * FROM patients LIMIT 7")
    ∧ strL "SELECT * FROM patients LIMIT 7"
        ≠ strL " SELECT * FROM patients" ++ strL " LIMIT " ++ intToChars (min 7 max_limit) :=
  ⟨rfl, by decide, rfl, by decide⟩

/-- C5 (amended): for every SQL accepted by the sanitizer, writing `s` for
the whitespace-stripped input: when the uppercased `s` does not contain
"LIMIT" as a substring the output is `s` with ` LIMIT m` appended where
`m = max(1, min(requested, 500))`; otherwise the output is `s` unchanged. -/
theorem C5_limit_clamp (sql : Str) (n : Int) (out : Str)
    (h : sanitize_select_sql sql n = .ok out) :
    (occursIn (strL "LIMIT") (upperStr (pyStrip sql)) = false →
       out = pyStrip sql ++ strL " LIMIT " ++ intToChars (max 1 (min n max_limit)))
    ∧ (occursIn (strL "LIMIT") (upperStr (pyStrip sql)) = true → out = pyStrip sql) := by
  cases h1 : (pyStrip sql).isEmpty
  · cases h2 : hasChar (pyStrip sql) ';'
    · cases h3 : (startsWithL (strL "SELECT") (upperStr (pyStrip sql))
          || startsWithL (strL "WITH") (upperStr (pyStrip sql)))
      · simp [sanitize_select_sql, h1, h2, h3] at h
      · cases h4 : forbidden_keywords.any (fun w => occursIn w (upperStr (pyStrip sql)))
        · cases h5 : (!(extract_tables (pyStrip sql)).isEmpty
              && !((extract_tables (pyStrip sql)).all (fun t => allowed_tables.any (fun a => a == t))))
          · cases hL : occursIn (strL "LIMIT") (upperStr (pyStrip sql))
            · simp [sanitize_select_sql, h1, h2, h3, h4, h5, hL] at h
              exact ⟨fun _ => by rw [List.append_assoc]; exact h.symm,
                     fun hc => by simp [hL] at hc⟩
            · simp [sanitize_select_sql, h1, h2, h3, h4, h5, hL] at h
              exact ⟨fun hc => by simp [hL] at hc, fun _ => h.symm⟩
          · simp [sanitize_select_sql, h1, h2, h3, h4, h5] at h
        · simp [sanitize_select_sql, h1, h2, h3, h4] at h
    · simp [sanitize_select_sql, h1, h2] at h
  · simp [sanitize_select_sql, h1] at h

/-- Witness for C5 (amended) at the spec's example input and limit. -/
theorem C5_witness :
    sanitize_select_sql (strL "SELECT * FROM patients") 50
      = .ok (strL "SELECT * FROM patients LIMIT 50")
    ∧ strL "SELECT * FROM patients LIMIT 50"
        = pyStrip (strL "SELECT * FROM patients") ++ strL " LIMIT "
          ++ intToChars (max 1 (min 50 max_limit)) := by
  refine ⟨rfl, ?_⟩
  exact (C5_limit_clamp (strL "SELECT * FROM patients") 50 _ rfl).1 (by decide)

/-- C7: the intent classifier is a total, deterministic function (it is a
pure Lean function of the message) returning exactly one intent from the
closed set data/medical/rag/cohort/ui/general; empty or whitespace-only
input (stripped to nothing) yields "general"; and the fixed routing
examples hold — which also exhibit the priority order, e.g. the cohort
family beats the medical keyword "diabetes" in the first example and the
ui family beats nothing else in the third. -/
theorem C7_classifier_total (msg : Str) :
    (classify msg = "data" ∨ classify msg = "medical" ∨ classify msg = "rag"
      ∨ classify msg = "cohort" ∨ classify msg = "ui" ∨ classify msg = "general")
    ∧ (pyStrip msg = [] → classify msg = "general")
    ∧ classify (strL "Build a cohort of females with diabetes") = "cohort"
    ∧ classify (strL "Find mention of hypertension in notes") = "rag"
    ∧ classify (strL "Open the registry view") = "ui"
    ∧ classify (strL "Hello there") = "general" := by
  refine ⟨?_, ?_, rfl, rfl, rfl, rfl⟩
  · simp only [classify]
    split
    · simp
    · split
      · simp
      · split
        · simp
        · split
          · simp
          · split
            · simp
            · split
              · simp
              · split
                · simp
                · split <;> simp
  · intro h
    simp [classify, h, lowerStr]

/-- Witness for C7 on whitespace-only input. -/
theorem C7_witness :
    pyStrip (strL "   ") = [] ∧ classify (strL "   ") = "general" :=
  ⟨by decide, (C7_classifier_total (strL "   ")).2.1 (by decide)⟩

/-- Retry-loop equations, provable by definitional unfolding. -/
lemma ainvokeGo_zero (call : Nat → Except String Str) (a : Nat) :
    ainvokeGo call a 0 = call a := rfl

lemma ainvokeAttempts_zero (call : Nat → Except String Str) (a : Nat) :
    ainvokeAttempts call a 0 = 1 := rfl

lemma ainvokeGo_succ_ok (call : Nat → Except String Str) (a n : Nat) (r : Str)
    (h : call a = .ok r) : ainvokeGo call a (n + 1) = .ok r := by
  conv_lhs => unfold ainvokeGo
  rw [h]

lemma ainvokeGo_succ_err (call : Nat → Except String Str) (a n : Nat) (e : String)
    (h : call a = .error e) : ainvokeGo call a (n + 1) = ainvokeGo call (a + 1) n := by
  conv_lhs => unfold ainvokeGo
  rw [h]

lemma ainvokeAttempts_succ_ok (call : Nat → Except String Str) (a n : Nat) (r : Str)
    (h : call a = .ok r) : ainvokeAttempts call a (n + 1) = 1 := by
  conv_lhs => unfold ainvokeAttempts
  rw [h]

lemma ainvokeAttempts_succ_err (call : Nat → Except String Str) (a n : Nat) (e : String)
    (h : call a = .error e) :
    ainvokeAttempts call a (n + 1) = 1 + ainvokeAttempts call (a + 1) n := by
  conv_lhs => unfold ainvokeAttempts
  rw [h]

/-- Retry loop invariant, all attempts failing: the loop returns the last
attempt's error verbatim after `remaining + 1` attempts. -/
lemma ainvokeGo_all_fail (call : Nat → Except String Str) :
    ∀ remaining attempt,
      (∀ i, attempt ≤ i → i ≤ attempt + remaining → ∃ e, call i = .error e) →
      ainvokeGo call attempt remaining = call (attempt + remaining)
      ∧ ainvokeAttempts call attempt remaining = remaining + 1 := by
  intro remaining
  induction remaining with
  | zero =>
    intro attempt h
    exact ⟨ainvokeGo_zero call attempt, ainvokeAttempts_zero call attempt⟩
  | succ n ih =>
    intro attempt h
    obtain ⟨e, he⟩ := h attempt le_rfl (by omega)
    have hrec := ih (attempt + 1) (fun i h1 h2 => h i (by omega) (by omega))
    constructor
    · rw [ainvokeGo_succ_err call attempt n e he, hrec.1]
      congr 1
      omega
    · rw [ainvokeAttempts_succ_err call attempt n e he, hrec.2]
      omega

/-- Retry loop invariant, first success at attempt `k`: the loop returns
that response after `k - attempt + 1` attempts. -/
lemma ainvokeGo_first_success (call : Nat → Except String Str) :
    ∀ remaining attempt k r,
      attempt ≤ k → k ≤ attempt + remaining → call k = .ok r →
      (∀ i, attempt ≤ i → i < k → ∃ e, call i = .error e) →
      ainvokeGo call attempt remaining = .ok r
      ∧ ainvokeAttempts call attempt remaining = k - attempt + 1 := by
  intro remaining
  induction remaining with
  | zero =>
    intro attempt k r h1 h2 hk _
    have hka : k = attempt := by omega
    subst hka
    refine ⟨by rw [ainvokeGo_zero, hk], ?_⟩
    rw [ainvokeAttempts_zero]
    omega
  | succ n ih =>
    intro attempt k r h1 h2 hk herr
    by_cases hEq : k = attempt
    · subst hEq
      constructor
      · exact ainvokeGo_succ_ok call k n r hk
      · rw [ainvokeAttempts_succ_ok call k n r hk]
        omega
    · obtain ⟨e, he⟩ := herr attempt le_rfl (by omega)
      have hrec := ih (attempt + 1) k r (by omega) (by omega) hk
        (fun i hi1 hi2 => herr i (by omega) hi2)
      constructor
      · rw [ainvokeGo_succ_err call attempt n e he]
        exact hrec.1
      · rw [ainvokeAttempts_succ_err call attempt n e he, hrec.2]
        omega

/-- C6: a wrapped call that fails on every attempt makes exactly
`max_retries + 1` attempts and then raises the last attempt's error
verbatim (the result IS `call max_retries`); a call whose first success is
attempt `k` returns that response and makes exactly `k + 1` attempts —
no further attempts after a success. -/
theorem C6_retry_exhaustion :
    (∀ (call : Nat → Except String Str) (maxRetries : Nat),
       (∀ i, i ≤ maxRetries → ∃ e, call i = .error e) →
       ainvoke_with_retries call maxRetries = call maxRetries
       ∧ ainvokeAttempts call 0 maxRetries = maxRetries + 1)
    ∧ (∀ (call : Nat → Except String Str) (maxRetries k : Nat) (r : Str),
       k ≤ maxRetries → call k = .ok r →
       (∀ i, i < k → ∃ e, call i = .error e) →
       ainvoke_with_retries call maxRetries = .ok r
       ∧ ainvokeAttempts call 0 maxRetries = k + 1) := by
  constructor
  · intro call maxRetries h
    have := ainvokeGo_all_fail call maxRetries 0 (fun i h1 h2 => h i (by omega))
    unfold ainvoke_with_retries
    simpa using this
  · intro call maxRetries k r hk hok herr
    have := ainvokeGo_first_success call maxRetries 0 k r (by omega) (by omega) hok
      (fun i _ hi => herr i hi)
    unfold ainvoke_with_retries
    simpa using this

/-- Witness for C6: an always-failing call with `max_retries = 2` makes 3
attempts and surfaces the failure; a call succeeding on attempt 1 returns
that response after 2 attempts. -/
theorem C6_witness :
    (ainvoke_with_retries (fun _ => (.error "down" : Except String Str)) 2 = .error "down"
      ∧ ainvokeAttempts (fun _ => (.error "down" : Except String Str)) 0 2 = 3)
    ∧ (ainvoke_with_retries
         (fun i => if i = 1 then (.ok (strL "hi") : Except String Str) else .error "down") 5
         = .ok (strL "hi")
      ∧ ainvokeAttempts
         (fun i => if i = 1 then (.ok (strL "hi") : Except String Str) else .error "down") 0 5 = 2) := by
  constructor
  · exact C6_retry_exhaustion.1 (fun _ => .error "down") 2 (fun i _ => ⟨"down", rfl⟩)
  · refine C6_retry_exhaustion.2 _ 5 1 (strL "hi") (by omega) rfl ?_
    intro i hi
    have hi0 : i = 0 := by omega
    subst hi0
    exact ⟨"down", rfl⟩

/-- C1: whenever the dispatched specialist returns a result `r` whose agent
is not the medical agent, and the medical LLM produces content `c` for the
handoff prompt, `ChatOrchestrator.run` returns an `AgentResult` with agent
"medical", `tool_calls` equal to `r.tool_calls`, and metadata equal to
`r.metadata` extended with `handoff_from` mapped to the original agent's
name. -/
theorem C1_mandatory_handoff (cfg : OrchCfg) (message : Str) (hist : List Msg)
    (intent0 : String) (r : AgentResult) (c : Str)
    (hroute : routedIntent cfg message hist = .ok intent0)
    (hagent : cfg.agentRun (dispatchedAgent (normalize_intent intent0)) message hist = .ok r)
    (hnotmed : r.agent ≠ "medical")
    (hmed : ainvoke_with_retries (cfg.medHandoffLlm (build_handoff_prompt message hist r))
              cfg.maxRetries = .ok c) :
    orchRun cfg message hist =
      .ok ⟨c, "medical", r.tool_calls, dictInsert r.metadata "handoff_from" (.s (strL r.agent))⟩ := by
  unfold orchRun
  rw [hroute]
  show dispatchFromIntent cfg message hist intent0 = _
  simp only [dispatchFromIntent]
  rw [hagent]
  show (if r.agent ≠ "medical" then run_handoff cfg message hist r else .ok r) = _
  rw [if_pos hnotmed]
  unfold run_handoff
  rw [hmed]

/-- Witness for C1: a cohort specialist's result is reworded by the medical
agent with tool calls and metadata carried over. -/
theorem C1_witness :
    routedIntent cfgCohort (strL "Build a cohort of females with diabetes") [] = .ok "cohort"
    ∧ cfgCohort.agentRun (dispatchedAgent (normalize_intent "cohort"))
        (strL "Build a cohort of females with diabetes") [] = .ok rcCohort
    ∧ orchRun cfgCohort (strL "Build a cohort of females with diabetes") [] =
        .ok ⟨strL "reviewed", "medical", rcCohort.tool_calls,
             dictInsert rcCohort.metadata "handoff_from" (.s (strL rcCohort.agent))⟩ := by
  refine ⟨rfl, rfl, ?_⟩
  exact C1_mandatory_handoff cfgCohort _ [] "cohort" rcCohort (strL "reviewed")
    rfl rfl (by decide) rfl

/-- The routing stage under an enabled router: `_route_with_llm` is the
retry-wrapped routing LLM followed by intent parsing. -/
lemma routeWithLlm_eq (cfg : OrchCfg) (message : Str) (hist : List Msg)
    (hrouter : cfg.useLlmRouter = true) :
    routeWithLlm cfg message hist
      = match ainvoke_with_retries (cfg.routeLlm (buildRoutePrompt message hist)) cfg.maxRetries with
        | .error e => .error e
        | .ok content => .ok (parseRoutedIntent content) := by
  unfold routeWithLlm
  rw [hrouter]
  simp

/-- The classification stage when the heuristic intent is `general` and the
router is enabled. -/
lemma routedIntent_llm (cfg : OrchCfg) (message : Str) (hist : List Msg)
    (hrouter : cfg.useLlmRouter = true) (hgen : classify message = "general") :
    routedIntent cfg message hist
      = match routeWithLlm cfg message hist with
        | .error e => .error e
        | .ok (some i) => .ok i
        | .ok none => .ok "general" := by
  simp only [routedIntent]
  rw [if_pos ⟨hrouter, hgen⟩, hgen]

/-- Counterexample to C4 as stated: with the router enabled, a message
heuristically classified "general", and a routing LLM failing on every
attempt, `run` does NOT keep the heuristic classification and dispatch — the
routing failure (re-raised by the retry wrapper inside `_route_with_llm`,
which `run` never catches) propagates to the caller. -/
theorem C4_counterexample :
    classify (strL "Hello there") = "general"
    ∧ cfgRouteDown.useLlmRouter = true
    ∧ orchRun cfgRouteDown (strL "Hello there") [] = .error "llm down" :=
  ⟨rfl, rfl, rfl⟩

/-- C4 (amended): for a message heuristically classified "general" with an
LLM router configured, an LLM response that is not a recognized intent falls
silently back to the heuristic classification and `run` still dispatches;
but a routing call that fails after retry exhaustion propagates its error
to the caller instead of falling back. -/
theorem C4_router_fallback (cfg : OrchCfg) (message : Str) (hist : List Msg)
    (hrouter : cfg.useLlmRouter = true) (hgen : classify message = "general") :
    (∀ e, ainvoke_with_retries (cfg.routeLlm (buildRoutePrompt message hist)) cfg.maxRetries
            = .error e →
       orchRun cfg message hist = .error e)
    ∧ (∀ content, ainvoke_with_retries (cfg.routeLlm (buildRoutePrompt message hist)) cfg.maxRetries
            = .ok content →
       parseRoutedIntent content = none →
       routedIntent cfg message hist = .ok "general"
       ∧ orchRun cfg message hist = dispatchFromIntent cfg message hist "general") := by
  constructor
  · intro e he
    have h1 : routeWithLlm cfg message hist = .error e := by
      rw [routeWithLlm_eq cfg message hist hrouter, he]
    have h2 : routedIntent cfg message hist = .error e := by
      rw [routedIntent_llm cfg message hist hrouter hgen, h1]
    unfold orchRun
    rw [h2]
  · intro content hc hnone
    have h1 : routeWithLlm cfg message hist = .ok none := by
      rw [routeWithLlm_eq cfg message hist hrouter, hc]
      show Except.ok (parseRoutedIntent content) = .ok none
      rw [hnone]
    have h2 : routedIntent cfg message hist = .ok "general" := by
      rw [routedIntent_llm cfg message hist hrouter hgen, h1]
    refine ⟨h2, ?_⟩
    unfold orchRun
    rw [h2]

/-- Witness for C4 (amended): an unrecognized routing answer keeps the
heuristic "general" classification and the turn still dispatches. -/
theorem C4_witness :
    classify (strL "Hello there") = "general"
    ∧ parseRoutedIntent (strL "Banana!") = none
    ∧ routedIntent cfgRouteBanana (strL "Hello there") [] = .ok "general"
    ∧ orchRun cfgRouteBanana (strL "Hello there") []
        = dispatchFromIntent cfgRouteBanana (strL "Hello there") [] "general" := by
  have h := (C4_router_fallback cfgRouteBanana (strL "Hello there") [] rfl rfl).2
    (strL "Banana!") rfl rfl
  exact ⟨rfl, rfl, h.1, h.2⟩

/-- Counterexample to C3 as stated: `build_cohort` — one of the Tool
Registry's handlers, cited by the claim — has no try/except around
execution, so a database error there is raised to the calling agent rather
than returned as an `{error, count: 0}` record. -/
theorem C3_counterexample :
    build_cohort dbDown [("has_diabetes", JVal.b true)] = .error "connection refused" := rfl

/-- C3 (amended): the free-form-SQL handlers `query_sql` and
`chart_from_sql` catch execution errors of sanitizer-accepted queries and
return a result record with `error` populated and `count` 0 instead of
raising; `build_cohort` (and the other non-sanitizing handlers) let
execution errors propagate. -/
theorem C3_execution_errors_are_data (db : DbEnv) (args : Dict) (sqlv : Str)
    (lim : Int) (safe : Str) (e : String)
    (hsql : jStrVal (dictGetD args "sql" (.s [])) = .ok sqlv)
    (hlim : pyIntOf (dictGetD args "limit" (.i max_limit)) = .ok lim)
    (hsan : sanitize_select_sql (rewrite_sql_columns db.patientColumns sqlv) lim = .ok safe)
    (hexec : db.exec safe [] = .error e) :
    query_sql db args
      = .ok [("rows", .arr []), ("count", .i 0), ("error", .s (strL e)), ("sql", .s safe)]
    ∧ chart_from_sql db args
      = .ok [("spec", .null), ("rows", .arr []), ("count", .i 0), ("error", .s (strL e)), ("sql", .s safe)] := by
  constructor
  · simp only [query_sql, Bind.bind, Except.bind, hsql, hlim, hsan, hexec]
  · simp only [chart_from_sql, Bind.bind, Except.bind, hsql, hlim, hsan, hexec]

/-- Witness for C3 (amended) on a failing database. -/
theorem C3_witness :
    dbDown.exec (strL "SELECT * FROM patients LIMIT 500") [] = .error "connection refused"
    ∧ query_sql dbDown [("sql", .s (strL "SELECT * FROM patients"))]
        = .ok [("rows", .arr []), ("count", .i 0),
               ("error", .s (strL "connection refused")),
               ("sql", .s (strL "SELECT * FROM patients LIMIT 500"))]
    ∧ chart_from_sql dbDown [("sql", .s (strL "SELECT * FROM patients"))]
        = .ok [("spec", .null), ("rows", .arr []), ("count", .i 0),
               ("error", .s (strL "connection refused")),
               ("sql", .s (strL "SELECT * FROM patients LIMIT 500"))] := by
  have h := C3_execution_errors_are_data dbDown [("sql", .s (strL "SELECT * FROM patients"))]
    (strL "SELECT * FROM patients") 500 (strL "SELECT * FROM patients LIMIT 500")
    "connection refused" rfl rfl rfl rfl
  exact ⟨rfl, h.1, h.2⟩

/-- Counterexample to C8 as stated: (i) when the model responds but the
response cannot be parsed as a JSON plan, the data agent returns a canned
clarification message with no tool call — it does NOT fall back to the
heuristic template, although one exists for the message; (ii) on the
claim's own example, a "how many" message with the model unavailable, the
heuristic fallback's fixed COUNT query targets EHVOL and the sanitizer
rejects it, so the turn raises instead of executing the template. -/
theorem C8_counterexample :
    dataAgentRun envParseFail (strL "how many patients are there") []
      = .ok ⟨cannedParseMsg, "data", [], []⟩
    ∧ heuristic_sql (strL "how many patients are there")
        = some (strL "SELECT COUNT(*) AS count FROM EHVOL")
    ∧ dataAgentRun envLlmDown (strL "how many patients are there") []
        = .error "Query references disallowed tables" :=
  ⟨rfl, rfl, rfl⟩

/-- C8 (amended): when the data agent's model call fails after retries,
`run` executes exactly the heuristic-fallback branch: no template yields the
static guidance message; a template whose sanitized execution succeeds is
run through the Tool Registry and returned with `metadata.fallback =
"heuristic"` (templates rejected by the sanitizer propagate its ValueError).
When the model responds but the response is unparseable, `run` returns the
canned clarification message, not the heuristic fallback. -/
theorem C8_degraded_mode (env : DataEnv) (message : Str) (hist : List Msg) :
    (∀ e, ainvoke_with_retries (env.dataLlm (data_build_prompt message hist)) env.maxRetries
            = .error e →
       dataAgentRun env message hist = dataAgentFallback env message)
    ∧ (∀ content,
         ainvoke_with_retries (env.dataLlm (data_build_prompt message hist)) env.maxRetries
            = .ok content →
       extract_json content = none →
       dataAgentRun env message hist = .ok ⟨cannedParseMsg, "data", [], []⟩)
    ∧ (∀ e, ainvoke_with_retries (env.dataLlm (data_build_prompt message hist)) env.maxRetries
            = .error e →
       heuristic_sql message = none →
       dataAgentRun env message hist = .ok ⟨askStatsMsg, "data", [], []⟩)
    ∧ (∀ e sql0 res,
         ainvoke_with_retries (env.dataLlm (data_build_prompt message hist)) env.maxRetries
            = .error e →
       heuristic_sql message = some sql0 →
       query_sql env.db [("sql", .s (ensure_limit sql0 env.sqlDefaultLimit)),
                         ("limit", .i env.sqlDefaultLimit)] = .ok res →
       dataAgentRun env message hist =
         .ok ⟨format_result (ensure_limit sql0 env.sqlDefaultLimit) res, "data",
              [⟨"query_sql", [("sql", .s (ensure_limit sql0 env.sqlDefaultLimit)),
                              ("limit", .i env.sqlDefaultLimit)]⟩],
              [("count", dictGetD res "count" (.i 0)), ("fallback", .s (strL "heuristic"))]⟩) := by
  refine ⟨?_, ?_, ?_, ?_⟩
  · intro e he
    simp only [dataAgentRun, he]
  · intro content hc hn
    simp only [dataAgentRun, hc, hn]
  · intro e he hn
    simp only [dataAgentRun, he, dataAgentFallback, hn]
  · intro e sql0 res he hs hq
    simp only [dataAgentRun, he, dataAgentFallback, hs]
    simp only [registry_call, if_pos]
    rw [hq]

/-- Witness for C8 (amended): with the model down, a city-count message
degrades into the fixed COUNT-by-city template executed through the Tool
Registry. -/
theorem C8_witness :
    heuristic_sql (strL "count of cairo people in the dataset") = some (citySql (strL "cairo"))
    ∧ dataAgentRun envLlmDown (strL "count of cairo people in the dataset") [] =
        .ok ⟨format_result (ensure_limit (citySql (strL "cairo")) 200)
               [("rows", .arr []), ("count", .i 0)], "data",
             [⟨"query_sql", [("sql", .s (ensure_limit (citySql (strL "cairo")) 200)),
                             ("limit", .i 200)]⟩],
             [("count", dictGetD [("rows", JVal.arr []), ("count", JVal.i 0)] "count" (.i 0)),
              ("fallback", .s (strL "heuristic"))]⟩ := by
  refine ⟨rfl, ?_⟩
  exact (C8_degraded_mode envLlmDown (strL "count of cairo people in the dataset") []).2.2.2
    "llm down" (citySql (strL "cairo")) [("rows", .arr []), ("count", .i 0)] rfl rfl rfl

end BioLink
